import Mathlib

/-!
Shallow embedding of the burnchain operation validation core of
blockstack-core: the LeaderKeyRegister and LeaderBlockCommit wire decoders,
transaction-shape validators, and fork-aware semantic validators from
src/chainstate/burn/operations/leader_key_register.rs and
src/chainstate/burn/operations/leader_block_commit.rs.

Bytes are modelled as lists of naturals; u16/u32/u64 fields are naturals
(the decoders only ever produce values in range, and the validators compare
them for equality and order, so no wraparound arises on the modelled paths).
The fork-aware chainstate query surface (BurnDB) is not among the source
files, so it is abstracted as a record of the query functions the two
validators call, exactly the read contract of the specification.
-/

namespace Blockstack

/-- Byte strings are lists of naturals (each intended below 256). -/
abbrev Bytes := List Nat

/-- The operation-level error codes surfaced by the two parsers and the two
semantic validators (chainstate/burn/operations Error variants used here). -/
inductive OpError where
  | InvalidInput
  | ParseError
  | LeaderKeyAlreadyRegistered
  | LeaderKeyBadConsensusHash
  | BlockCommitBadInput
  | BlockCommitPredatesGenesis
  | BlockCommitBadEpoch
  | BlockCommitNoLeaderKey
  | BlockCommitLeaderKeyAlreadyUsed
  | BlockCommitNoParent
  deriving DecidableEq, Repr

/-- Slice of a byte string: the half-open range lo..hi, as in the Rust
slicing data[lo..hi]. -/
def sliceBytes (data : Bytes) (lo hi : Nat) : Bytes :=
  (data.drop lo).take (hi - lo)

/-- Modelled from the spec: parse_u16_from_be lives in
chainstate/burn/operations/mod.rs, which is not under src/.  Per the spec
("All multi-byte integer fields are big-endian") and the source comment
("network byte order"), two bytes are read big-endian; any other length is
rejected. -/
def parse_u16_from_be : Bytes → Option Nat
  | [b0, b1] => some (b0 * 256 + b1)
  | _ => none

/-- Modelled from the spec: big-endian u32 reader, as parse_u16_from_be. -/
def parse_u32_from_be : Bytes → Option Nat
  | [b0, b1, b2, b3] => some (((b0 * 256 + b1) * 256 + b2) * 256 + b3)
  | _ => none

/-- Modelled from the repository's own tests: tests::test_parse in
leader_block_commit.rs expects parent_block_backptr 0x4140 from source bytes
40 41 (and epoch_num 0x71706362 from source bytes 62 63 70 71), so the u16
reader as the repository's tests pin it down reads its two bytes
little-endian, despite the name of the source function. -/
def parse_u16_as_tested : Bytes → Option Nat
  | [b0, b1] => some (b1 * 256 + b0)
  | _ => none

/-- Modelled from the repository's own tests: little-endian u32 reader, as
parse_u16_as_tested. -/
def parse_u32_as_tested : Bytes → Option Nat
  | [b0, b1, b2, b3] => some (((b3 * 256 + b2) * 256 + b1) * 256 + b0)
  | _ => none

/-- Modelled from the spec: a VRF public key is 32 bytes (an Ed25519 point);
the point-validity check (util::vrf) is not under src/, so a key just
carries its bytes and validity is abstracted where the register decoder
needs it. -/
structure VRFPublicKey where
  key_bytes : Bytes
  deriving DecidableEq, Repr

/-- Modelled from the spec: an Address exposes to_bytes (the 20-byte hash
embedded in the address) and is_burn (the well-known burn sink predicate);
their implementations are not under src/, so both are carried abstractly. -/
structure Address where
  to_bytes : Bytes
  is_burn : Bool
  deriving DecidableEq, Repr

/-- Modelled from the spec: BurnchainSigner is (hash_mode, num_sigs,
public_keys) and exposes to_address_bits, the 20-byte hash of the triple;
the hash itself is not under src/, so the derived bits are carried as a
field. -/
structure BurnchainSigner where
  hash_mode : Nat
  num_sigs : Nat
  public_keys : List Bytes
  to_address_bits : Bytes
  deriving DecidableEq, Repr

/-- A recipient output of a burnchain transaction: an address and amount. -/
structure BurnchainRecipient where
  address : Address
  amount : Nat
  deriving DecidableEq, Repr

/-- The burnchain transaction interface consumed by the two parsers:
get_signers, get_recipients, opcode, data (payload after the 3-byte framing
prefix), txid, vtxindex. -/
structure BurnchainTransaction where
  get_signers : List BurnchainSigner
  get_recipients : List BurnchainRecipient
  opcode : Nat
  data : Bytes
  txid : Bytes
  vtxindex : Nat
  deriving DecidableEq, Repr

/-- BurnchainBlockHeader, as in burnchains/mod.rs. -/
structure BurnchainBlockHeader where
  block_height : Nat
  block_hash : Bytes
  parent_block_hash : Bytes
  num_txs : Nat
  fork_segment_id : Nat
  parent_fork_segment_id : Nat
  fork_segment_length : Nat
  fork_length : Nat
  deriving DecidableEq, Repr

/-- The burnchain descriptor fields the validators consume. -/
structure Burnchain where
  consensus_hash_lifetime : Nat
  first_block_height : Nat
  deriving DecidableEq, Repr

/-- The snapshot fields the validators read: height and fork segment. -/
structure BlockSnapshot where
  block_height : Nat
  fork_segment_id : Nat
  deriving DecidableEq, Repr

/-- LeaderKeyRegisterOp record, as in chainstate/burn/operations. -/
structure LeaderKeyRegisterOp where
  consensus_hash : Bytes
  public_key : VRFPublicKey
  memo : Bytes
  address : Address
  txid : Bytes
  vtxindex : Nat
  block_height : Nat
  burn_header_hash : Bytes
  fork_segment_id : Nat
  deriving DecidableEq, Repr

/-- LeaderBlockCommitOp record, as in chainstate/burn/operations. -/
structure LeaderBlockCommitOp where
  block_header_hash : Bytes
  new_seed : Bytes
  parent_block_backptr : Nat
  parent_vtxindex : Nat
  key_block_backptr : Nat
  key_vtxindex : Nat
  epoch_num : Nat
  memo : Bytes
  burn_fee : Nat
  input : BurnchainSigner
  txid : Bytes
  vtxindex : Nat
  block_height : Nat
  burn_header_hash : Bytes
  fork_segment_id : Nat
  deriving DecidableEq, Repr

/-- Return type of LeaderBlockCommitOp::parse_data (named ParsedData in
leader_block_commit.rs). -/
structure CommitParsedData where
  block_header_hash : Bytes
  new_seed : Bytes
  parent_block_backptr : Nat
  parent_vtxindex : Nat
  key_block_backptr : Nat
  key_vtxindex : Nat
  epoch_num : Nat
  memo : Bytes
  deriving DecidableEq, Repr

/-- Return type of LeaderKeyRegisterOp::parse_data (named ParsedData in
leader_key_register.rs). -/
structure RegisterParsedData where
  consensus_hash : Bytes
  public_key : VRFPublicKey
  memo : Bytes
  deriving DecidableEq, Repr

/-- Modelled from the spec: the fixed single-byte opcode of a
LeaderBlockCommit transaction; the Opcodes enum is not under src/, and the
value 0x5b is the one appearing in the repository's test transactions. -/
def Opcodes.LeaderBlockCommit : Nat := 0x5b

/-- Modelled from the spec: the fixed single-byte opcode of a
LeaderKeyRegister transaction; the value 0x5e is the one appearing in the
repository's test transactions. -/
def Opcodes.LeaderKeyRegister : Nat := 0x5e

/-- LeaderBlockCommitOp::parse_data of leader_block_commit.rs, with the
missing u16/u32 readers modelled big-endian from the spec.  A payload
shorter than 77 bytes is malformed; otherwise the fixed-offset fields are
decoded and exactly one memo byte is consumed. -/
def LeaderBlockCommitOp.parse_data (data : Bytes) : Option CommitParsedData :=
  if data.length < 77 then
    none
  else
    match parse_u16_from_be (sliceBytes data 64 66),
          parse_u16_from_be (sliceBytes data 66 68),
          parse_u16_from_be (sliceBytes data 68 70),
          parse_u16_from_be (sliceBytes data 70 72),
          parse_u32_from_be (sliceBytes data 72 76) with
    | some pbb, some pvt, some kbb, some kvt, some en =>
      some { block_header_hash := sliceBytes data 0 32
             new_seed := sliceBytes data 32 64
             parent_block_backptr := pbb
             parent_vtxindex := pvt
             key_block_backptr := kbb
             key_vtxindex := kvt
             epoch_num := en
             memo := sliceBytes data 76 77 }
    | _, _, _, _, _ => none

/-- LeaderBlockCommitOp::parse_data again, but with the u16/u32 readers as
the repository's tests pin them down (little-endian).  Identical to
LeaderBlockCommitOp.parse_data in every other respect. -/
def LeaderBlockCommitOp.parse_data_as_tested (data : Bytes) : Option CommitParsedData :=
  if data.length < 77 then
    none
  else
    match parse_u16_as_tested (sliceBytes data 64 66),
          parse_u16_as_tested (sliceBytes data 66 68),
          parse_u16_as_tested (sliceBytes data 68 70),
          parse_u16_as_tested (sliceBytes data 70 72),
          parse_u32_as_tested (sliceBytes data 72 76) with
    | some pbb, some pvt, some kbb, some kvt, some en =>
      some { block_header_hash := sliceBytes data 0 32
             new_seed := sliceBytes data 32 64
             parent_block_backptr := pbb
             parent_vtxindex := pvt
             key_block_backptr := kbb
             key_vtxindex := kvt
             epoch_num := en
             memo := sliceBytes data 76 77 }
    | _, _, _, _, _ => none

/-- LeaderKeyRegisterOp::parse_data of leader_key_register.rs.  The
VRFPublicKey::from_bytes validity check is not under src/, so the decoder is
parameterized by it (fromBytes).  A payload shorter than 52 bytes is
malformed; an invalid proving public key is malformed; the remaining bytes
are the memo verbatim. -/
def LeaderKeyRegisterOp.parse_data (fromBytes : Bytes → Option VRFPublicKey)
    (data : Bytes) : Option RegisterParsedData :=
  if data.length < 52 then
    none
  else
    match fromBytes (sliceBytes data 20 52) with
    | none => none
    | some pubkey =>
      some { consensus_hash := sliceBytes data 0 20
             public_key := pubkey
             memo := data.drop 52 }

/-- LeaderBlockCommitOp::parse_from_tx of leader_block_commit.rs: shape
checks (at least one input, at least one output, correct opcode), burn
output checks (outputs[0] must be the burn sink with positive amount),
payload decode, and the range sanity checks, in the source's order. -/
def LeaderBlockCommitOp.parse_from_tx (block_height : Nat) (fork_segment_id : Nat)
    (block_hash : Bytes) (tx : BurnchainTransaction) :
    Except OpError LeaderBlockCommitOp :=
  match tx.get_signers, tx.get_recipients with
  | [], _ => Except.error OpError.InvalidInput
  | _ :: _, [] => Except.error OpError.InvalidInput
  | i0 :: _, o0 :: _ =>
    if tx.opcode ≠ Opcodes.LeaderBlockCommit then
      Except.error OpError.InvalidInput
    else if ¬ o0.address.is_burn then
      Except.error OpError.ParseError
    else if o0.amount = 0 then
      Except.error OpError.ParseError
    else
      match LeaderBlockCommitOp.parse_data tx.data with
      | none => Except.error OpError.ParseError
      | some d =>
        if d.parent_block_backptr = 0 ∧ d.parent_vtxindex ≠ 0 then
          Except.error OpError.ParseError
        else if d.parent_block_backptr ≥ block_height then
          Except.error OpError.ParseError
        else if d.key_block_backptr = 0 then
          Except.error OpError.ParseError
        else if d.key_block_backptr ≥ block_height then
          Except.error OpError.ParseError
        else if d.epoch_num ≥ block_height then
          Except.error OpError.ParseError
        else
          Except.ok { block_header_hash := d.block_header_hash
                      new_seed := d.new_seed
                      parent_block_backptr := d.parent_block_backptr
                      parent_vtxindex := d.parent_vtxindex
                      key_block_backptr := d.key_block_backptr
                      key_vtxindex := d.key_vtxindex
                      epoch_num := d.epoch_num
                      memo := d.memo
                      burn_fee := o0.amount
                      input := i0
                      txid := tx.txid
                      vtxindex := tx.vtxindex
                      block_height := block_height
                      burn_header_hash := block_hash
                      fork_segment_id := fork_segment_id }

/-- BlockstackOperation::from_tx for LeaderBlockCommitOp: parse_from_tx on
the containing header's height, fork segment and hash. -/
def LeaderBlockCommitOp.from_tx (block_header : BurnchainBlockHeader)
    (tx : BurnchainTransaction) : Except OpError LeaderBlockCommitOp :=
  LeaderBlockCommitOp.parse_from_tx block_header.block_height
    block_header.fork_segment_id block_header.block_hash tx

/-- LeaderKeyRegisterOp::parse_from_tx of leader_key_register.rs: shape
checks, opcode check, payload decode; the address of the record is taken
verbatim from outputs[0]. -/
def LeaderKeyRegisterOp.parse_from_tx (fromBytes : Bytes → Option VRFPublicKey)
    (block_height : Nat) (fork_segment_id : Nat) (block_hash : Bytes)
    (tx : BurnchainTransaction) : Except OpError LeaderKeyRegisterOp :=
  match tx.get_signers, tx.get_recipients with
  | [], _ => Except.error OpError.InvalidInput
  | _ :: _, [] => Except.error OpError.InvalidInput
  | _ :: _, o0 :: _ =>
    if tx.opcode ≠ Opcodes.LeaderKeyRegister then
      Except.error OpError.InvalidInput
    else
      match LeaderKeyRegisterOp.parse_data fromBytes tx.data with
      | none => Except.error OpError.ParseError
      | some d =>
        Except.ok { consensus_hash := d.consensus_hash
                    public_key := d.public_key
                    memo := d.memo
                    address := o0.address
                    txid := tx.txid
                    vtxindex := tx.vtxindex
                    block_height := block_height
                    burn_header_hash := block_hash
                    fork_segment_id := fork_segment_id }

/-- BlockstackOperation::from_tx for LeaderKeyRegisterOp. -/
def LeaderKeyRegisterOp.from_tx (fromBytes : Bytes → Option VRFPublicKey)
    (block_header : BurnchainBlockHeader) (tx : BurnchainTransaction) :
    Except OpError LeaderKeyRegisterOp :=
  LeaderKeyRegisterOp.parse_from_tx fromBytes block_header.block_height
    block_header.fork_segment_id block_header.block_hash tx

/-- Modelled from the spec: the fork-aware chainstate query surface
(BurnDB) is not under src/; the validators consume exactly these read
queries, each scoped to a fork segment as described in the specification. -/
structure BurnDBView where
  first_block_snapshot : BlockSnapshot
  get_block_snapshot : Bytes → Option BlockSnapshot
  get_leader_key_at : Nat → Nat → Nat → Option LeaderKeyRegisterOp
  is_leader_key_consumed : Nat → LeaderKeyRegisterOp → Nat → Bool
  get_block_commit_at : Nat → Nat → Nat → Option LeaderBlockCommitOp
  has_VRF_public_key : VRFPublicKey → Nat → Bool
  is_fresh_consensus_hash : Nat → Nat → Bytes → Nat → Bool

/-- BlockstackOperation::check for LeaderBlockCommitOp, as in
leader_block_commit.rs.  The result is none exactly on the fatal path (no
snapshot for the header's parent hash, an .expect in the source); otherwise
it is the Ok/typed-error outcome of the semantic checks, in the source's
order: burn fee, genesis bound, epoch, same-block key, key lookup, key
freshness, parent linkage, address binding. -/
def LeaderBlockCommitOp.check (op : LeaderBlockCommitOp) (_burnchain : Burnchain)
    (block_header : BurnchainBlockHeader) (db : BurnDBView) :
    Option (Except OpError Unit) :=
  let leader_key_block_height := op.block_height - op.key_block_backptr
  let parent_block_height := op.block_height - op.parent_block_backptr
  if op.burn_fee = 0 then
    some (Except.error OpError.BlockCommitBadInput)
  else
    let first_block_snapshot := db.first_block_snapshot
    if op.block_height < first_block_snapshot.block_height then
      some (Except.error OpError.BlockCommitPredatesGenesis)
    else
      let target_epoch := op.block_height - first_block_snapshot.block_height
      if op.epoch_num ≠ target_epoch then
        some (Except.error OpError.BlockCommitBadEpoch)
      else if op.key_block_backptr = 0 then
        some (Except.error OpError.BlockCommitNoLeaderKey)
      else
        match db.get_block_snapshot block_header.parent_block_hash with
        | none => none
        | some chain_tip =>
          match db.get_leader_key_at leader_key_block_height op.key_vtxindex
                  chain_tip.fork_segment_id with
          | none => some (Except.error OpError.BlockCommitNoLeaderKey)
          | some register_key =>
            if db.is_leader_key_consumed chain_tip.block_height register_key
                 chain_tip.fork_segment_id then
              some (Except.error OpError.BlockCommitLeaderKeyAlreadyUsed)
            else
              let addr_check :=
                if op.input.to_address_bits ≠ register_key.address.to_bytes then
                  some (Except.error OpError.BlockCommitBadInput)
                else
                  some (Except.ok ())
              if op.parent_block_backptr = 0 ∧ op.parent_vtxindex ≠ 0 then
                some (Except.error OpError.BlockCommitNoParent)
              else if op.parent_block_backptr ≠ 0 ∨ op.parent_vtxindex ≠ 0 then
                match db.get_block_commit_at parent_block_height op.parent_vtxindex
                        chain_tip.fork_segment_id with
                | none => some (Except.error OpError.BlockCommitNoParent)
                | some _ => addr_check
              else
                addr_check

/-- BlockstackOperation::check for LeaderKeyRegisterOp, as in
leader_key_register.rs: key uniqueness on the chain tip's fork, then
consensus hash freshness within the burnchain's lifetime. -/
def LeaderKeyRegisterOp.check (op : LeaderKeyRegisterOp) (burnchain : Burnchain)
    (block_header : BurnchainBlockHeader) (db : BurnDBView) :
    Option (Except OpError Unit) :=
  match db.get_block_snapshot block_header.parent_block_hash with
  | none => none
  | some chain_tip =>
    if db.has_VRF_public_key op.public_key chain_tip.fork_segment_id then
      some (Except.error OpError.LeaderKeyAlreadyRegistered)
    else if ¬ db.is_fresh_consensus_hash chain_tip.block_height
              burnchain.consensus_hash_lifetime op.consensus_hash
              chain_tip.fork_segment_id then
      some (Except.error OpError.LeaderKeyBadConsensusHash)
    else
      some (Except.ok ())

/-- The 77-byte commit payload of the first tests::test_parse fixture: 32
bytes 0x22 (block header hash), 32 bytes 0x33 (new seed), then the field
bytes 40 41 42 43 50 51 60 61 62 63 70 71 and the memo byte 80. -/
def testCommitPayload : Bytes :=
  List.replicate 32 0x22 ++ List.replicate 32 0x33 ++
    [0x40, 0x41, 0x42, 0x43, 0x50, 0x51, 0x60, 0x61, 0x62, 0x63, 0x70, 0x71, 0x80]

/-- The decode of testCommitPayload under the big-endian readers. -/
def testCommitParsed : CommitParsedData :=
  { block_header_hash := List.replicate 32 0x22
    new_seed := List.replicate 32 0x33
    parent_block_backptr := 0x4041
    parent_vtxindex := 0x4243
    key_block_backptr := 0x5051
    key_vtxindex := 0x6061
    epoch_num := 0x62637071
    memo := [0x80] }

/-- Address bytes bound to the test leader key. -/
def keyAddressBytes : Bytes := List.range 20

/-- The well-known burn sink. -/
def burnAddress : Address := { to_bytes := List.replicate 20 0, is_burn := true }

/-- A payment address whose hash matches testSigner. -/
def keyAddress : Address := { to_bytes := keyAddressBytes, is_burn := false }

/-- A signer whose address bits match keyAddress. -/
def testSigner : BurnchainSigner :=
  { hash_mode := 0, num_sigs := 1, public_keys := [[2]], to_address_bits := keyAddressBytes }

/-- A signer whose address bits do not match keyAddress. -/
def otherSigner : BurnchainSigner :=
  { hash_mode := 0, num_sigs := 1, public_keys := [[3]], to_address_bits := List.replicate 20 7 }

/-- The VRF key already registered in the test chainstate. -/
def testVRFKey : VRFPublicKey := { key_bytes := List.replicate 32 1 }

/-- A VRF key not yet registered in the test chainstate. -/
def otherVRFKey : VRFPublicKey := { key_bytes := List.replicate 32 4 }

/-- The one consensus hash that is fresh in the test chainstate. -/
def freshHash : Bytes := List.replicate 20 2

/-- The leader key register accepted at slot (124, 456) on fork 0 of the
test chainstate. -/
def testRegisterKey : LeaderKeyRegisterOp :=
  { consensus_hash := freshHash
    public_key := testVRFKey
    memo := []
    address := keyAddress
    txid := List.replicate 32 0
    vtxindex := 456
    block_height := 124
    burn_header_hash := List.replicate 32 0
    fork_segment_id := 0 }

/-- The chain tip snapshot of the test chainstate. -/
def testTip : BlockSnapshot := { block_height := 125, fork_segment_id := 0 }

/-- A block commit valid against the test chainstate as of height 126. -/
def baseCommitOp : LeaderBlockCommitOp :=
  { block_header_hash := List.replicate 32 0x22
    new_seed := List.replicate 32 0x33
    parent_block_backptr := 1
    parent_vtxindex := 444
    key_block_backptr := 2
    key_vtxindex := 456
    epoch_num := 5
    memo := [0x80]
    burn_fee := 12345
    input := testSigner
    txid := List.replicate 32 6
    vtxindex := 445
    block_height := 126
    burn_header_hash := List.replicate 32 8
    fork_segment_id := 0 }

/-- Concrete chainstate view: genesis at height 121; one snapshot (the tip,
height 125, fork 0) keyed by header hash [9]; one leader key at (124, 456)
on fork 0; one block commit at (125, 444) on fork 0; no key consumed;
testVRFKey registered; freshHash fresh. -/
def testDb : BurnDBView :=
  { first_block_snapshot := { block_height := 121, fork_segment_id := 0 }
    get_block_snapshot := fun h => if h = [9] then some testTip else none
    get_leader_key_at := fun bh vt fs =>
      if bh = 124 ∧ vt = 456 ∧ fs = 0 then some testRegisterKey else none
    is_leader_key_consumed := fun _ _ _ => false
    get_block_commit_at := fun bh vt fs =>
      if bh = 125 ∧ vt = 444 ∧ fs = 0 then some baseCommitOp else none
    has_VRF_public_key := fun pk fs => if pk = testVRFKey ∧ fs = 0 then true else false
    is_fresh_consensus_hash := fun _ _ ch _ => if ch = freshHash then true else false }

/-- The test chainstate with every leader key already consumed. -/
def testDbConsumed : BurnDBView :=
  { testDb with is_leader_key_consumed := fun _ _ _ => true }

/-- Header of the block being processed in the semantic-check witnesses:
height 126, parent hash [9] (so the chain tip resolves to testTip). -/
def testHeader : BurnchainBlockHeader :=
  { block_height := 126
    block_hash := List.replicate 32 8
    parent_block_hash := [9]
    num_txs := 1
    fork_segment_id := 0
    parent_fork_segment_id := 0
    fork_segment_length := 1
    fork_length := 1 }

/-- Burnchain descriptor used by the witnesses. -/
def testBurnchain : Burnchain := { consensus_hash_lifetime := 24, first_block_height := 121 }

/-- A register op acceptable against the test chainstate. -/
def baseRegisterOp : LeaderKeyRegisterOp :=
  { consensus_hash := freshHash
    public_key := otherVRFKey
    memo := [1, 2, 3]
    address := keyAddress
    txid := List.replicate 32 0
    vtxindex := 457
    block_height := 126
    burn_header_hash := List.replicate 32 8
    fork_segment_id := 0 }

/-- A commit transaction that parses: burn first output with amount 12345,
the LeaderBlockCommit opcode, and testCommitPayload as data. -/
def testTxGood : BurnchainTransaction :=
  { get_signers := [testSigner]
    get_recipients := [{ address := burnAddress, amount := 12345 }]
    opcode := 0x5b
    data := testCommitPayload
    txid := List.replicate 32 6
    vtxindex := 444 }

/-- testTxGood with a non-burn first output. -/
def testTxNonBurn : BurnchainTransaction :=
  { testTxGood with get_recipients := [{ address := keyAddress, amount := 12345 }] }

/-- A VRF key constructor that accepts any byte string (used where the
witnesses do not exercise point validity). -/
def alwaysValidVRF : Bytes → Option VRFPublicKey := fun bs => some { key_bytes := bs }

/-- A register payload: 20-byte consensus hash 0x22, 32-byte public key
0xa3, 5-byte memo. -/
def testRegPayload : Bytes :=
  List.replicate 20 0x22 ++ List.replicate 32 0xa3 ++ [1, 2, 3, 4, 5]

/-- A register transaction with a zero-amount first output. -/
def testTxReg1 : BurnchainTransaction :=
  { get_signers := [testSigner]
    get_recipients := [{ address := keyAddress, amount := 0 }]
    opcode := 0x5e
    data := testRegPayload
    txid := List.replicate 32 1
    vtxindex := 1 }

/-- testTxReg1 with a positive first-output amount. -/
def testTxReg2 : BurnchainTransaction :=
  { testTxReg1 with get_recipients := [{ address := keyAddress, amount := 12345 }] }

/-- baseCommitOp with the genesis-parent sentinel (0, 0). -/
def genesisParentCommitOp : LeaderBlockCommitOp :=
  { baseCommitOp with parent_block_backptr := 0, parent_vtxindex := 0 }

/-- baseCommitOp pointing at a parent in its own block (0, 444). -/
def sameBlockParentCommitOp : LeaderBlockCommitOp :=
  { baseCommitOp with parent_block_backptr := 0, parent_vtxindex := 444 }

/-- C1: the commit decoder is claimed to read parent_block_backptr,
parent_vtxindex, key_block_backptr, key_vtxindex and epoch_num big-endian,
so that source bytes 40 41 at offsets 64..66 decode to 0x4041.  On the
test_parse fixture payload, the big-endian reading (per the spec and the
source comment "network byte order") gives 0x4041, but the decoder as the
repository's own test pins it down gives 0x4140 (little-endian): the code
contradicts its documented byte order. -/
theorem commit_backptr_wire_endianness_divergence :
    (LeaderBlockCommitOp.parse_data testCommitPayload).map
        CommitParsedData.parent_block_backptr = some 0x4041 ∧
    (LeaderBlockCommitOp.parse_data testCommitPayload).map
        CommitParsedData.epoch_num = some 0x62637071 ∧
    (LeaderBlockCommitOp.parse_data_as_tested testCommitPayload).map
        CommitParsedData.parent_block_backptr = some 0x4140 ∧
    (LeaderBlockCommitOp.parse_data_as_tested testCommitPayload).map
        CommitParsedData.epoch_num = some 0x71706362 ∧
    (0x4041 : Nat) ≠ 0x4140 := by
  decide

/-- C8: the register decoder rejects payloads shorter than 52 bytes and
payloads whose bytes at 20..52 are not a valid VRF public key, and the
commit decoder rejects payloads shorter than 77 bytes, regardless of
contents. -/
theorem decoder_underlength_and_bad_vrf
    (fromBytes : Bytes → Option VRFPublicKey) (data : Bytes) :
    (data.length < 52 → LeaderKeyRegisterOp.parse_data fromBytes data = none) ∧
    (fromBytes (sliceBytes data 20 52) = none →
      LeaderKeyRegisterOp.parse_data fromBytes data = none) ∧
    (data.length < 77 → LeaderBlockCommitOp.parse_data data = none) := by
  refine ⟨?_, ?_, ?_⟩
  · intro h
    simp [LeaderKeyRegisterOp.parse_data, h]
  · intro h
    by_cases hlen : data.length < 52
    · simp [LeaderKeyRegisterOp.parse_data, hlen]
    · simp [LeaderKeyRegisterOp.parse_data, hlen, h]
  · intro h
    simp [LeaderBlockCommitOp.parse_data, h]

/-- Witness for C8: a 1-byte payload is rejected by both decoders. -/
theorem decoder_underlength_and_bad_vrf_witness :
    LeaderKeyRegisterOp.parse_data (fun _ => none) [0] = none ∧
    LeaderBlockCommitOp.parse_data [0] = none :=
  ⟨(decoder_underlength_and_bad_vrf (fun _ => none) [0]).1 (by decide),
   (decoder_underlength_and_bad_vrf (fun _ => none) [0]).2.2 (by decide)⟩

/-- C9: the commit semantic validator never inspects new_seed: two commits
identical except for new_seed get the same check result against any
burnchain, header and chainstate; in particular no VRF proof over the seed
is verified at this layer. -/
theorem commit_check_ignores_new_seed (op : LeaderBlockCommitOp) (s : Bytes)
    (burnchain : Burnchain) (block_header : BurnchainBlockHeader) (db : BurnDBView) :
    LeaderBlockCommitOp.check { op with new_seed := s } burnchain block_header db
      = op.check burnchain block_header db := by
  cases op
  rfl

/-- C5: the commit semantic validator checks, in order and before any key
or parent lookup: zero burn fee (BlockCommitBadInput), height below the
first block snapshot (BlockCommitPredatesGenesis), and epoch number
differing from height minus first height (BlockCommitBadEpoch). -/
theorem commit_check_preamble_order (op : LeaderBlockCommitOp) (burnchain : Burnchain)
    (block_header : BurnchainBlockHeader) (db : BurnDBView) :
    (op.burn_fee = 0 →
      op.check burnchain block_header db
        = some (Except.error OpError.BlockCommitBadInput)) ∧
    (op.burn_fee ≠ 0 → op.block_height < db.first_block_snapshot.block_height →
      op.check burnchain block_header db
        = some (Except.error OpError.BlockCommitPredatesGenesis)) ∧
    (op.burn_fee ≠ 0 → ¬ op.block_height < db.first_block_snapshot.block_height →
      op.epoch_num ≠ op.block_height - db.first_block_snapshot.block_height →
      op.check burnchain block_header db
        = some (Except.error OpError.BlockCommitBadEpoch)) := by
  refine ⟨?_, ?_, ?_⟩
  · intro h0
    simp [LeaderBlockCommitOp.check, h0]
  · intro h0 h1
    simp [LeaderBlockCommitOp.check, h0, h1]
  · intro h0 h1 h2
    simp [LeaderBlockCommitOp.check, h0, h1, h2]

/-- Witness for C5: concrete commits with zero fee, pre-genesis height, and
a wrong epoch number are rejected with the three respective errors. -/
theorem commit_check_preamble_order_witness :
    LeaderBlockCommitOp.check { baseCommitOp with burn_fee := 0 }
        testBurnchain testHeader testDb
      = some (Except.error OpError.BlockCommitBadInput) ∧
    LeaderBlockCommitOp.check { baseCommitOp with block_height := 80 }
        testBurnchain testHeader testDb
      = some (Except.error OpError.BlockCommitPredatesGenesis) ∧
    LeaderBlockCommitOp.check { baseCommitOp with epoch_num := 50 }
        testBurnchain testHeader testDb
      = some (Except.error OpError.BlockCommitBadEpoch) :=
  ⟨(commit_check_preamble_order { baseCommitOp with burn_fee := 0 }
      testBurnchain testHeader testDb).1 (by decide),
   (commit_check_preamble_order { baseCommitOp with block_height := 80 }
      testBurnchain testHeader testDb).2.1 (by decide) (by decide),
   (commit_check_preamble_order { baseCommitOp with epoch_num := 50 }
      testBurnchain testHeader testDb).2.2 (by decide) (by decide) (by decide)⟩

/-- C2: for a commit passing the burn-fee, genesis and epoch checks:
a zero key_block_backptr yields BlockCommitNoLeaderKey with no key lookup
(the result holds for every chainstate); otherwise, with the chain tip
resolved from the header's parent hash, a missing leader key at
(block_height - key_block_backptr, key_vtxindex) on the tip's fork yields
BlockCommitNoLeaderKey, and a key already consumed as of the tip's height
on that fork yields BlockCommitLeaderKeyAlreadyUsed. -/
theorem commit_check_key_pairing (op : LeaderBlockCommitOp) (burnchain : Burnchain)
    (block_header : BurnchainBlockHeader) (db : BurnDBView)
    (hfee : op.burn_fee ≠ 0)
    (hgen : ¬ op.block_height < db.first_block_snapshot.block_height)
    (hepoch : op.epoch_num = op.block_height - db.first_block_snapshot.block_height) :
    (op.key_block_backptr = 0 →
      op.check burnchain block_header db
        = some (Except.error OpError.BlockCommitNoLeaderKey)) ∧
    (∀ tip, db.get_block_snapshot block_header.parent_block_hash = some tip →
      op.key_block_backptr ≠ 0 →
      (db.get_leader_key_at (op.block_height - op.key_block_backptr) op.key_vtxindex
          tip.fork_segment_id = none →
        op.check burnchain block_header db
          = some (Except.error OpError.BlockCommitNoLeaderKey)) ∧
      (∀ key, db.get_leader_key_at (op.block_height - op.key_block_backptr) op.key_vtxindex
          tip.fork_segment_id = some key →
        db.is_leader_key_consumed tip.block_height key tip.fork_segment_id = true →
        op.check burnchain block_header db
          = some (Except.error OpError.BlockCommitLeaderKeyAlreadyUsed))) := by
  constructor
  · intro hk
    simp [LeaderBlockCommitOp.check, hfee, hgen, hepoch, hk]
  · intro tip htip hk
    constructor
    · intro hnone
      simp [LeaderBlockCommitOp.check, hfee, hgen, hepoch, hk, htip, hnone]
    · intro key hkey hcons
      simp [LeaderBlockCommitOp.check, hfee, hgen, hepoch, hk, htip, hkey, hcons]

/-- Witness for C2: a same-block key pointer, a dangling key pointer, and a
pointer to a consumed key are rejected with the claimed errors. -/
theorem commit_check_key_pairing_witness :
    LeaderBlockCommitOp.check { baseCommitOp with key_block_backptr := 0 }
        testBurnchain testHeader testDb
      = some (Except.error OpError.BlockCommitNoLeaderKey) ∧
    LeaderBlockCommitOp.check { baseCommitOp with key_vtxindex := 400 }
        testBurnchain testHeader testDb
      = some (Except.error OpError.BlockCommitNoLeaderKey) ∧
    LeaderBlockCommitOp.check baseCommitOp testBurnchain testHeader testDbConsumed
      = some (Except.error OpError.BlockCommitLeaderKeyAlreadyUsed) :=
  ⟨(commit_check_key_pairing { baseCommitOp with key_block_backptr := 0 }
      testBurnchain testHeader testDb (by decide) (by decide) (by decide)).1 (by decide),
   (((commit_check_key_pairing { baseCommitOp with key_vtxindex := 400 }
      testBurnchain testHeader testDb (by decide) (by decide) (by decide)).2
      testTip (by decide) (by decide)).1 (by decide)),
   (((commit_check_key_pairing baseCommitOp
      testBurnchain testHeader testDbConsumed (by decide) (by decide) (by decide)).2
      testTip (by decide) (by decide)).2 testRegisterKey (by decide) (by decide))⟩

/-- C3: for a commit passing the burn-fee, genesis, epoch and key checks:
a zero parent back-pointer with a nonzero parent vtxindex yields
BlockCommitNoParent; a non-genesis parent pointer with no accepted commit at
(block_height - parent_block_backptr, parent_vtxindex) on the tip's fork
yields BlockCommitNoParent; and a genesis parent (both zero) passes the
parent-linkage stage with no parent lookup, leaving only the address
binding. -/
theorem commit_check_parent_linkage (op : LeaderBlockCommitOp) (burnchain : Burnchain)
    (block_header : BurnchainBlockHeader) (db : BurnDBView)
    (tip : BlockSnapshot) (register_key : LeaderKeyRegisterOp)
    (hfee : op.burn_fee ≠ 0)
    (hgen : ¬ op.block_height < db.first_block_snapshot.block_height)
    (hepoch : op.epoch_num = op.block_height - db.first_block_snapshot.block_height)
    (hkbb : op.key_block_backptr ≠ 0)
    (htip : db.get_block_snapshot block_header.parent_block_hash = some tip)
    (hkey : db.get_leader_key_at (op.block_height - op.key_block_backptr) op.key_vtxindex
        tip.fork_segment_id = some register_key)
    (hunused : db.is_leader_key_consumed tip.block_height register_key
        tip.fork_segment_id = false) :
    (op.parent_block_backptr = 0 → op.parent_vtxindex ≠ 0 →
      op.check burnchain block_header db
        = some (Except.error OpError.BlockCommitNoParent)) ∧
    (¬ (op.parent_block_backptr = 0 ∧ op.parent_vtxindex = 0) →
      db.get_block_commit_at (op.block_height - op.parent_block_backptr) op.parent_vtxindex
          tip.fork_segment_id = none →
      op.check burnchain block_header db
        = some (Except.error OpError.BlockCommitNoParent)) ∧
    (op.parent_block_backptr = 0 → op.parent_vtxindex = 0 →
      op.check burnchain block_header db
        = some (if op.input.to_address_bits ≠ register_key.address.to_bytes then
                  Except.error OpError.BlockCommitBadInput
                else
                  Except.ok ())) := by
  refine ⟨?_, ?_, ?_⟩
  · intro hp hv
    simp [LeaderBlockCommitOp.check, hfee, hgen, hepoch, hkbb, htip, hkey, hunused, hp, hv]
  · intro hnb hnone
    by_cases hp : op.parent_block_backptr = 0
    · have hv : op.parent_vtxindex ≠ 0 := fun h => hnb ⟨hp, h⟩
      simp [LeaderBlockCommitOp.check, hfee, hgen, hepoch, hkbb, htip, hkey, hunused, hp, hv]
    · simp [LeaderBlockCommitOp.check, hfee, hgen, hepoch, hkbb, htip, hkey, hunused,
            hp, hnone]
  · intro hp hv
    by_cases hab : op.input.to_address_bits = register_key.address.to_bytes <;>
      simp [LeaderBlockCommitOp.check, hfee, hgen, hepoch, hkbb, htip, hkey, hunused,
            hp, hv, hab]

/-- Witness for C3: same-block parent and missing parent are rejected with
BlockCommitNoParent; a genesis-parent commit proceeds to the address
binding (and is accepted there). -/
theorem commit_check_parent_linkage_witness :
    LeaderBlockCommitOp.check sameBlockParentCommitOp testBurnchain testHeader testDb
      = some (Except.error OpError.BlockCommitNoParent) ∧
    LeaderBlockCommitOp.check { baseCommitOp with parent_vtxindex := 445 }
        testBurnchain testHeader testDb
      = some (Except.error OpError.BlockCommitNoParent) ∧
    LeaderBlockCommitOp.check genesisParentCommitOp testBurnchain testHeader testDb
      = some (if genesisParentCommitOp.input.to_address_bits
                  ≠ testRegisterKey.address.to_bytes then
                Except.error OpError.BlockCommitBadInput
              else
                Except.ok ()) :=
  ⟨(commit_check_parent_linkage sameBlockParentCommitOp
      testBurnchain testHeader testDb testTip testRegisterKey
      (by decide) (by decide) (by decide) (by decide) (by decide) (by decide)
      (by decide)).1 (by decide) (by decide),
   (commit_check_parent_linkage { baseCommitOp with parent_vtxindex := 445 }
      testBurnchain testHeader testDb testTip testRegisterKey
      (by decide) (by decide) (by decide) (by decide) (by decide) (by decide)
      (by decide)).2.1 (by decide) (by decide),
   (commit_check_parent_linkage genesisParentCommitOp
      testBurnchain testHeader testDb testTip testRegisterKey
      (by decide) (by decide) (by decide) (by decide) (by decide) (by decide)
      (by decide)).2.2 (by decide) (by decide)⟩

/-- C4: for a commit passing every earlier semantic check (burn fee,
genesis, epoch, key existence and freshness, and parent linkage, the latter
either genesis-parent or a found parent commit), the final check compares
the input's address bits with the paired key's address bytes: equality
yields Ok, inequality yields BlockCommitBadInput. -/
theorem commit_check_address_binding (op : LeaderBlockCommitOp) (burnchain : Burnchain)
    (block_header : BurnchainBlockHeader) (db : BurnDBView)
    (tip : BlockSnapshot) (register_key : LeaderKeyRegisterOp)
    (hfee : op.burn_fee ≠ 0)
    (hgen : ¬ op.block_height < db.first_block_snapshot.block_height)
    (hepoch : op.epoch_num = op.block_height - db.first_block_snapshot.block_height)
    (hkbb : op.key_block_backptr ≠ 0)
    (htip : db.get_block_snapshot block_header.parent_block_hash = some tip)
    (hkey : db.get_leader_key_at (op.block_height - op.key_block_backptr) op.key_vtxindex
        tip.fork_segment_id = some register_key)
    (hunused : db.is_leader_key_consumed tip.block_height register_key
        tip.fork_segment_id = false)
    (hpar : (op.parent_block_backptr = 0 ∧ op.parent_vtxindex = 0) ∨
            (op.parent_block_backptr ≠ 0 ∧
             ∃ pc, db.get_block_commit_at (op.block_height - op.parent_block_backptr)
                     op.parent_vtxindex tip.fork_segment_id = some pc)) :
    (op.input.to_address_bits = register_key.address.to_bytes →
      op.check burnchain block_header db = some (Except.ok ())) ∧
    (op.input.to_address_bits ≠ register_key.address.to_bytes →
      op.check burnchain block_header db
        = some (Except.error OpError.BlockCommitBadInput)) := by
  constructor
  · intro haddr
    rcases hpar with ⟨hp, hv⟩ | ⟨hp, pc, hpc⟩
    · simp [LeaderBlockCommitOp.check, hfee, hgen, hepoch, hkbb, htip, hkey, hunused,
            hp, hv, haddr]
    · simp [LeaderBlockCommitOp.check, hfee, hgen, hepoch, hkbb, htip, hkey, hunused,
            hp, hpc, haddr]
  · intro haddr
    rcases hpar with ⟨hp, hv⟩ | ⟨hp, pc, hpc⟩
    · simp [LeaderBlockCommitOp.check, hfee, hgen, hepoch, hkbb, htip, hkey, hunused,
            hp, hv, haddr]
    · simp [LeaderBlockCommitOp.check, hfee, hgen, hepoch, hkbb, htip, hkey, hunused,
            hp, hpc, haddr]

/-- Witness for C4: the matching signer is accepted; a mismatching signer is
rejected with BlockCommitBadInput. -/
theorem commit_check_address_binding_witness :
    LeaderBlockCommitOp.check baseCommitOp testBurnchain testHeader testDb
      = some (Except.ok ()) ∧
    LeaderBlockCommitOp.check { baseCommitOp with input := otherSigner }
        testBurnchain testHeader testDb
      = some (Except.error OpError.BlockCommitBadInput) :=
  ⟨(commit_check_address_binding baseCommitOp testBurnchain testHeader testDb
      testTip testRegisterKey (by decide) (by decide) (by decide) (by decide)
      (by decide) (by decide) (by decide)
      (Or.inr ⟨by decide, baseCommitOp, by decide⟩)).1 (by decide),
   (commit_check_address_binding { baseCommitOp with input := otherSigner }
      testBurnchain testHeader testDb testTip testRegisterKey
      (by decide) (by decide) (by decide) (by decide) (by decide) (by decide)
      (by decide) (Or.inr ⟨by decide, baseCommitOp, by decide⟩)).2 (by decide)⟩

/-- C6: for a register op with the chain tip resolved from the header's
parent hash: a public key already registered on the tip's fork yields
LeaderKeyAlreadyRegistered; otherwise a consensus hash not fresh within the
burnchain's lifetime as of the tip's height on that fork yields
LeaderKeyBadConsensusHash; otherwise the op is accepted. -/
theorem register_check_semantics (op : LeaderKeyRegisterOp) (burnchain : Burnchain)
    (block_header : BurnchainBlockHeader) (db : BurnDBView) (tip : BlockSnapshot)
    (htip : db.get_block_snapshot block_header.parent_block_hash = some tip) :
    (db.has_VRF_public_key op.public_key tip.fork_segment_id = true →
      op.check burnchain block_header db
        = some (Except.error OpError.LeaderKeyAlreadyRegistered)) ∧
    (db.has_VRF_public_key op.public_key tip.fork_segment_id = false →
      db.is_fresh_consensus_hash tip.block_height burnchain.consensus_hash_lifetime
          op.consensus_hash tip.fork_segment_id = false →
      op.check burnchain block_header db
        = some (Except.error OpError.LeaderKeyBadConsensusHash)) ∧
    (db.has_VRF_public_key op.public_key tip.fork_segment_id = false →
      db.is_fresh_consensus_hash tip.block_height burnchain.consensus_hash_lifetime
          op.consensus_hash tip.fork_segment_id = true →
      op.check burnchain block_header db = some (Except.ok ())) := by
  refine ⟨?_, ?_, ?_⟩
  · intro hdup
    simp [LeaderKeyRegisterOp.check, htip, hdup]
  · intro hdup hstale
    simp [LeaderKeyRegisterOp.check, htip, hdup, hstale]
  · intro hdup hfresh
    simp [LeaderKeyRegisterOp.check, htip, hdup, hfresh]

/-- Witness for C6: a duplicate key, a stale consensus hash, and a fresh
registration get the three claimed outcomes. -/
theorem register_check_semantics_witness :
    LeaderKeyRegisterOp.check { baseRegisterOp with public_key := testVRFKey }
        testBurnchain testHeader testDb
      = some (Except.error OpError.LeaderKeyAlreadyRegistered) ∧
    LeaderKeyRegisterOp.check { baseRegisterOp with consensus_hash := List.replicate 20 9 }
        testBurnchain testHeader testDb
      = some (Except.error OpError.LeaderKeyBadConsensusHash) ∧
    LeaderKeyRegisterOp.check baseRegisterOp testBurnchain testHeader testDb
      = some (Except.ok ()) :=
  ⟨(register_check_semantics { baseRegisterOp with public_key := testVRFKey }
      testBurnchain testHeader testDb testTip (by decide)).1 (by decide),
   (register_check_semantics { baseRegisterOp with consensus_hash := List.replicate 20 9 }
      testBurnchain testHeader testDb testTip (by decide)).2.1 (by decide) (by decide),
   (register_check_semantics baseRegisterOp
      testBurnchain testHeader testDb testTip (by decide)).2.2 (by decide) (by decide)⟩

/-- C7: for a commit transaction with at least one input, at least one
output and the LeaderBlockCommit opcode: a non-burn first output, a zero
first-output amount, a same-block parent pointer (backptr 0 with nonzero
vtxindex), a parent or key back-pointer at or above the block height, a
zero key back-pointer, or an epoch number at or above the block height each
yield ParseError; and when none of these hold and the payload decodes, the
parse succeeds with burn_fee taken from outputs[0].amount and input from
inputs[0]. -/
theorem commit_parse_from_tx_range_checks
    (block_height fork_segment_id : Nat) (block_hash : Bytes)
    (tx : BurnchainTransaction) (i0 : BurnchainSigner) (irest : List BurnchainSigner)
    (o0 : BurnchainRecipient) (orest : List BurnchainRecipient)
    (hi : tx.get_signers = i0 :: irest)
    (ho : tx.get_recipients = o0 :: orest)
    (hop : tx.opcode = Opcodes.LeaderBlockCommit) :
    (o0.address.is_burn = false →
      LeaderBlockCommitOp.parse_from_tx block_height fork_segment_id block_hash tx
        = Except.error OpError.ParseError) ∧
    (o0.address.is_burn = true → o0.amount = 0 →
      LeaderBlockCommitOp.parse_from_tx block_height fork_segment_id block_hash tx
        = Except.error OpError.ParseError) ∧
    (∀ d, o0.address.is_burn = true → o0.amount ≠ 0 →
      LeaderBlockCommitOp.parse_data tx.data = some d →
      ((d.parent_block_backptr = 0 ∧ d.parent_vtxindex ≠ 0) →
        LeaderBlockCommitOp.parse_from_tx block_height fork_segment_id block_hash tx
          = Except.error OpError.ParseError) ∧
      (d.parent_block_backptr ≥ block_height →
        LeaderBlockCommitOp.parse_from_tx block_height fork_segment_id block_hash tx
          = Except.error OpError.ParseError) ∧
      (d.key_block_backptr = 0 →
        LeaderBlockCommitOp.parse_from_tx block_height fork_segment_id block_hash tx
          = Except.error OpError.ParseError) ∧
      (d.key_block_backptr ≥ block_height →
        LeaderBlockCommitOp.parse_from_tx block_height fork_segment_id block_hash tx
          = Except.error OpError.ParseError) ∧
      (d.epoch_num ≥ block_height →
        LeaderBlockCommitOp.parse_from_tx block_height fork_segment_id block_hash tx
          = Except.error OpError.ParseError) ∧
      (¬ (d.parent_block_backptr = 0 ∧ d.parent_vtxindex ≠ 0) →
        d.parent_block_backptr < block_height →
        d.key_block_backptr ≠ 0 →
        d.key_block_backptr < block_height →
        d.epoch_num < block_height →
        LeaderBlockCommitOp.parse_from_tx block_height fork_segment_id block_hash tx
          = Except.ok { block_header_hash := d.block_header_hash
                        new_seed := d.new_seed
                        parent_block_backptr := d.parent_block_backptr
                        parent_vtxindex := d.parent_vtxindex
                        key_block_backptr := d.key_block_backptr
                        key_vtxindex := d.key_vtxindex
                        epoch_num := d.epoch_num
                        memo := d.memo
                        burn_fee := o0.amount
                        input := i0
                        txid := tx.txid
                        vtxindex := tx.vtxindex
                        block_height := block_height
                        burn_header_hash := block_hash
                        fork_segment_id := fork_segment_id })) := by
  refine ⟨?_, ?_, ?_⟩
  · intro hb
    simp [LeaderBlockCommitOp.parse_from_tx, hi, ho, hop, hb]
  · intro hb ha
    simp [LeaderBlockCommitOp.parse_from_tx, hi, ho, hop, hb, ha]
  · intro d hb ha hd
    refine ⟨?_, ?_, ?_, ?_, ?_, ?_⟩
    · intro hc
      simp [LeaderBlockCommitOp.parse_from_tx, hi, ho, hop, hb, ha, hd, hc]
    · intro hc
      simp [LeaderBlockCommitOp.parse_from_tx, hi, ho, hop, hb, ha, hd, hc]
    · intro hc
      simp [LeaderBlockCommitOp.parse_from_tx, hi, ho, hop, hb, ha, hd, hc]
    · intro hc
      simp [LeaderBlockCommitOp.parse_from_tx, hi, ho, hop, hb, ha, hd, hc]
    · intro hc
      simp [LeaderBlockCommitOp.parse_from_tx, hi, ho, hop, hb, ha, hd, hc]
    · intro hc1 hc2 hc3 hc4 hc5
      have n2 : ¬ d.parent_block_backptr ≥ block_height := Nat.not_le.mpr hc2
      have n4 : ¬ d.key_block_backptr ≥ block_height := Nat.not_le.mpr hc4
      have n5 : ¬ d.epoch_num ≥ block_height := Nat.not_le.mpr hc5
      simp [LeaderBlockCommitOp.parse_from_tx, hi, ho, hop, hb, ha, hd, hc1, n2, hc3,
            n4, n5]

/-- Witness for C7: a non-burn first output is a ParseError; the good test
transaction parses at height 0x71706363 into the decoded record with its
burn fee and first input. -/
theorem commit_parse_from_tx_range_checks_witness :
    LeaderBlockCommitOp.parse_from_tx 0x71706363 0 (List.replicate 32 7) testTxNonBurn
      = Except.error OpError.ParseError ∧
    LeaderBlockCommitOp.parse_from_tx 0x71706363 0 (List.replicate 32 7) testTxGood
      = Except.ok { block_header_hash := testCommitParsed.block_header_hash
                    new_seed := testCommitParsed.new_seed
                    parent_block_backptr := testCommitParsed.parent_block_backptr
                    parent_vtxindex := testCommitParsed.parent_vtxindex
                    key_block_backptr := testCommitParsed.key_block_backptr
                    key_vtxindex := testCommitParsed.key_vtxindex
                    epoch_num := testCommitParsed.epoch_num
                    memo := testCommitParsed.memo
                    burn_fee := 12345
                    input := testSigner
                    txid := testTxGood.txid
                    vtxindex := testTxGood.vtxindex
                    block_height := 0x71706363
                    burn_header_hash := List.replicate 32 7
                    fork_segment_id := 0 } :=
  ⟨(commit_parse_from_tx_range_checks 0x71706363 0 (List.replicate 32 7) testTxNonBurn
      testSigner [] { address := keyAddress, amount := 12345 } [] rfl rfl rfl).1 rfl,
   ((commit_parse_from_tx_range_checks 0x71706363 0 (List.replicate 32 7) testTxGood
      testSigner [] { address := burnAddress, amount := 12345 } [] rfl rfl rfl).2.2
      testCommitParsed rfl (by decide) (by decide)).2.2.2.2.2 (by decide) (by decide)
      (by decide) (by decide) (by decide)⟩

/-- C10: LeaderKeyRegister parsing is independent of output amounts: two
register transactions identical except for the amounts of their outputs
(addresses, signers, opcode, payload, txid, vtxindex equal) get identical
from_tx results; in particular no minimum payment to the first output is
enforced (the register record does not even carry an amount). -/
theorem register_from_tx_ignores_output_amounts
    (fromBytes : Bytes → Option VRFPublicKey) (block_header : BurnchainBlockHeader)
    (tx1 tx2 : BurnchainTransaction)
    (hs : tx1.get_signers = tx2.get_signers)
    (hop : tx1.opcode = tx2.opcode)
    (hd : tx1.data = tx2.data)
    (ht : tx1.txid = tx2.txid)
    (hv : tx1.vtxindex = tx2.vtxindex)
    (hr : tx1.get_recipients.map BurnchainRecipient.address
        = tx2.get_recipients.map BurnchainRecipient.address) :
    LeaderKeyRegisterOp.from_tx fromBytes block_header tx1
      = LeaderKeyRegisterOp.from_tx fromBytes block_header tx2 := by
  cases hsg : tx2.get_signers with
  | nil =>
    cases h1 : tx1.get_recipients <;> cases h2 : tx2.get_recipients <;>
      simp [LeaderKeyRegisterOp.from_tx, LeaderKeyRegisterOp.parse_from_tx, hs, hsg,
            h1, h2]
  | cons s0 sr =>
    cases h1 : tx1.get_recipients with
    | nil =>
      cases h2 : tx2.get_recipients with
      | nil =>
        simp [LeaderKeyRegisterOp.from_tx, LeaderKeyRegisterOp.parse_from_tx, hs, hsg,
              h1, h2]
      | cons p0 pr =>
        rw [h1, h2] at hr
        simp at hr
    | cons o0 orest =>
      cases h2 : tx2.get_recipients with
      | nil =>
        rw [h1, h2] at hr
        simp at hr
      | cons p0 pr =>
        rw [h1, h2] at hr
        simp only [List.map_cons, List.cons.injEq] at hr
        by_cases hopc : tx2.opcode = Opcodes.LeaderKeyRegister
        · cases hpd : LeaderKeyRegisterOp.parse_data fromBytes tx2.data with
          | none =>
            simp [LeaderKeyRegisterOp.from_tx, LeaderKeyRegisterOp.parse_from_tx,
                  hs, hsg, h1, h2, hop, hd, hopc, hpd]
          | some d =>
            simp [LeaderKeyRegisterOp.from_tx, LeaderKeyRegisterOp.parse_from_tx,
                  hs, hsg, h1, h2, hop, hd, ht, hv, hopc, hpd, hr.1]
        · simp [LeaderKeyRegisterOp.from_tx, LeaderKeyRegisterOp.parse_from_tx,
                hs, hsg, h1, h2, hop, hopc]

/-- Witness for C10: a register transaction with a zero-amount first output
parses identically to the same transaction with amount 12345. -/
theorem register_from_tx_ignores_output_amounts_witness :
    LeaderKeyRegisterOp.from_tx alwaysValidVRF testHeader testTxReg1
      = LeaderKeyRegisterOp.from_tx alwaysValidVRF testHeader testTxReg2 :=
  register_from_tx_ignores_output_amounts alwaysValidVRF testHeader testTxReg1 testTxReg2
    rfl rfl rfl rfl rfl (by decide)
